import Mathlib

/-!
Verification of the transducer loss PyTorch binding
(`src/transducer/torch_binding.py`) and of the spec-described core
forward lattice. The binding-level model embeds tensors as shape,
dtype, contiguity flag and (for the integer length tensors) their
flattened data; Python exceptions become an explicit error type and
every fallible operation returns `Except`. The core dynamic program,
whose C/CUDA implementation is not part of the repository excerpt, is
modelled from the spec over the reals.
-/

/-- Element types of the torch tensors the binding inspects. -/
inductive DType where
  | float32
  | float64
  | int32
  | int64
  deriving DecidableEq, Repr

/-- A torch tensor, abstracted to what the binding reads: its shape,
its dtype, whether it is contiguous, and (used only for the 1-D
integer length tensors) its data. -/
structure Tensor where
  shape : List Nat
  dtype : DType
  contiguous : Bool
  idata : List Int
  deriving DecidableEq, Repr

/-- The Python exceptions the binding can raise, tagged by kind:
TypeError from check_type, ValueError from check_contiguous,
ValueError from the shape comparisons, ValueError from check_dim,
IndexError from indexing a too-short shape tuple, ValueError from
unpacking a shape of the wrong rank, and the RuntimeError torch.max
raises on an empty tensor. -/
inductive PyErr where
  | typeErr (name : String) (t : DType)
  | contigErr (name : String)
  | shapeErr (msg : String)
  | dimErr (name : String) (d : Nat)
  | indexErr
  | unpackErr (expected got : Nat)
  | emptyMaxErr
  deriving DecidableEq, Repr

/-- Python tuple indexing on a shape: `x.shape[i]` raises IndexError
when the shape has at most `i` entries. -/
def Tensor.shapeAt (x : Tensor) (i : Nat) : Except PyErr Nat :=
  match x.shape.get? i with
  | some v => .ok v
  | none => .error .indexErr

/-- Model of torch.max over a 1-D integer tensor: RuntimeError on an empty
tensor, otherwise the maximum element. -/
def torch_max (x : Tensor) : Except PyErr Int :=
  match x.idata with
  | [] => .error .emptyMaxErr
  | a :: r => .ok (r.foldl max a)

/-- Total maximum of a nonempty integer list, the value `torch_max`
returns when it succeeds. -/
def torchMaxVal (l : List Int) : Int :=
  match l with
  | [] => 0
  | a :: r => r.foldl max a

/-- Model of check_type from torch_binding.py: raise TypeError when a
dtype of the tensor is not the required one. -/
def check_type (var : Tensor) (t : DType) (name : String) : Except PyErr Unit :=
  if var.dtype ≠ t then .error (.typeErr name t) else .ok ()

/-- Model of check_contiguous from torch_binding.py: raise ValueError when a
tensor is not contiguous. -/
def check_contiguous (var : Tensor) (name : String) : Except PyErr Unit :=
  if ¬ var.contiguous then .error (.contigErr name) else .ok ()

/-- Model of check_dim from torch_binding.py: raise ValueError when a
rank of the tensor is not the required one. -/
def check_dim (var : Tensor) (dim : Nat) (name : String) : Except PyErr Unit :=
  if var.shape.length ≠ dim then .error (.dimErr name dim) else .ok ()

/-- Model of certify_inputs from torch_binding.py, statement for statement in
source order: the five dtype checks, the three contiguity checks, the
five shape comparisons (each shape subscript is Python tuple indexing
and can raise IndexError first), the five rank checks, and the two
max-length comparisons. Comparisons involving `U - 1` and the tensor
maxima are carried out over the integers, as in Python. -/
def certify_inputs (emissions predictions labels input_lengths label_lengths : Tensor) :
    Except PyErr Unit := do
  check_type emissions .float32 "emissions"
  check_type predictions .float32 "predictions"
  check_type labels .int32 "labels"
  check_type input_lengths .int32 "input_lengths"
  check_type label_lengths .int32 "label_lengths"
  check_contiguous labels "labels"
  check_contiguous label_lengths "label_lengths"
  check_contiguous input_lengths "lengths"
  let batchSize ← emissions.shapeAt 0
  let eV ← emissions.shapeAt 2
  let pV ← predictions.shapeAt 2
  if eV ≠ pV then Except.error (.shapeErr "vocab size mismatch.") else
  do
  let il0 ← input_lengths.shapeAt 0
  if il0 ≠ batchSize then Except.error (.shapeErr "must have a length per example.") else
  do
  let ll0 ← label_lengths.shapeAt 0
  if ll0 ≠ batchSize then Except.error (.shapeErr "must have a label length per example.") else
  do
  let lb0 ← labels.shapeAt 0
  if lb0 ≠ batchSize then Except.error (.shapeErr "must have a label per example.") else
  do
  let lb1 ← labels.shapeAt 1
  let p1 ← predictions.shapeAt 1
  if (lb1 : Int) ≠ (p1 : Int) - 1 then
    Except.error (.shapeErr "labels must be padded to maximum label length.") else
  do
  check_dim emissions 3 "emissions"
  check_dim predictions 3 "predictions"
  check_dim labels 2 "labels"
  check_dim input_lengths 1 "input_lenghts"
  check_dim label_lengths 1 "label_lenghts"
  let max_T ← torch_max input_lengths
  let max_U ← torch_max label_lengths
  let T ← emissions.shapeAt 1
  let U ← predictions.shapeAt 1
  if (T : Int) ≠ max_T then Except.error (.shapeErr "Input length mismatch") else
  if (U : Int) ≠ max_U + 1 then Except.error (.shapeErr "Output length mismatch") else
  Except.ok ()

/-- Python tuple unpacking `B, T, V = emissions.shape`: ValueError
when the shape does not have exactly three entries. -/
def unpack3 (l : List Nat) : Except PyErr (Nat × Nat × Nat) :=
  match l with
  | [a, b, c] => .ok (a, b, c)
  | _ => .error (.unpackErr 3 l.length)

/-- The autograd context `ctx` populated by `Transducer.forward`:
`ctx.save_for_backward(emissions, predictions, alphas, log_norms,
labels, input_lengths, label_lengths)` plus `ctx.blank`. -/
structure Ctx where
  emissions : Tensor
  predictions : Tensor
  alphas : Tensor
  log_norms : Tensor
  labels : Tensor
  input_lengths : Tensor
  label_lengths : Tensor
  blank : Int
  deriving DecidableEq, Repr

/-- Model of torch.empty(size, device, dtype): a fresh contiguous tensor of
the given shape and dtype; its contents are uninitialized and the
binding hands the buffer to the core to fill, so the model leaves the
data empty. -/
def torch_empty (shape : List Nat) (dtype : DType) : Tensor :=
  { shape := shape, dtype := dtype, contiguous := true, idata := [] }

/-- Model of Transducer.forward from torch_binding.py, in source order:
destructure `B, T, V = emissions.shape` and `U = predictions.shape[1]`,
run `certify_inputs`, then allocate `costs`, `alphas` and `log_norms`,
invoke the core to populate them, save the context and return the
costs.  On any error nothing is allocated because allocation follows
validation in program order, and the `Except` error carries no
output. -/
def Transducer.forward (emissions predictions labels input_lengths label_lengths : Tensor)
    (blank : Int) : Except PyErr (Tensor × Ctx) := do
  let (b, t, _v) ← unpack3 emissions.shape
  let u ← predictions.shapeAt 1
  certify_inputs emissions predictions labels input_lengths label_lengths
  let costs := torch_empty [b] emissions.dtype
  let alphas := torch_empty [b, t, u] emissions.dtype
  let log_norms := torch_empty [b, t, u] emissions.dtype
  Except.ok (costs,
    { emissions := emissions, predictions := predictions, alphas := alphas,
      log_norms := log_norms, labels := labels, input_lengths := input_lengths,
      label_lengths := label_lengths, blank := blank })

/-- Use of the default argument blank=0: calling `Transducer.forward`
without the blank keyword passes 0, as in TransducerLoss. -/
def Transducer.forwardDefault (emissions predictions labels input_lengths label_lengths : Tensor) :
    Except PyErr (Tensor × Ctx) :=
  Transducer.forward emissions predictions labels input_lengths label_lengths 0

/-- The six-tuple `Transducer.backward` returns, one slot per input of
`forward`: gradients for emissions and predictions, `None` for labels,
input_lengths, label_lengths and blank. -/
structure BackwardOut where
  egrad : Option Tensor
  pgrad : Option Tensor
  labels_grad : Option Tensor
  input_lengths_grad : Option Tensor
  label_lengths_grad : Option Tensor
  blank_grad : Option Tensor
  deriving DecidableEq, Repr

/-- Model of Transducer.backward from torch_binding.py: read the saved
tensors, destructure `B, T, V = emissions.shape` and
`U = predictions.shape[1]`, allocate `egrads` of shape (B, T, V) and
`pgrads` of shape (B, U, V) with the dtype of the upstream gradient, invoke
the core to fill them, and return
`egrads, pgrads, None, None, None, None`. -/
def Transducer.backward (ctx : Ctx) (cost : Tensor) : Except PyErr BackwardOut := do
  let (b, t, v) ← unpack3 ctx.emissions.shape
  let u ← ctx.predictions.shapeAt 1
  let egrads := torch_empty [b, t, v] cost.dtype
  let pgrads := torch_empty [b, u, v] cost.dtype
  Except.ok
    { egrad := some egrads, pgrad := some pgrads, labels_grad := none,
      input_lengths_grad := none, label_lengths_grad := none, blank_grad := none }

/-- Whether an `Except` computation succeeded. -/
def exceptOk {α : Type} (r : Except PyErr α) : Bool :=
  match r with
  | .ok _ => true
  | .error _ => false

/-- Whether an `Except` computation raised one of the shape-comparison
ValueErrors (as opposed to a type, contiguity, rank, index, unpack or
empty-max error). -/
def raisesShapeErr {α : Type} (r : Except PyErr α) : Bool :=
  match r with
  | .error (.shapeErr _) => true
  | _ => false

/-- Whether an `Except` computation raised a TypeError. -/
def raisesTypeErr {α : Type} (r : Except PyErr α) : Bool :=
  match r with
  | .error (.typeErr _ _) => true
  | _ => false

/-- Whether an `Except` computation raised a contiguity ValueError. -/
def raisesContigErr {α : Type} (r : Except PyErr α) : Bool :=
  match r with
  | .error (.contigErr _) => true
  | _ => false

/-- Modelled from the spec: the repository excerpt does not contain
the `_transducer` core, so the forward lattice of spec section 4.3 is
modelled here. One example of the batch: emission scores indexed by
time and symbol, prediction scores indexed by output position and
symbol, the label sequence, the vocabulary size and the blank id. -/
structure TransEx where
  emissions : Nat → Nat → ℝ
  predictions : Nat → Nat → ℝ
  labels : Nat → Nat
  vocab : Nat
  blank : Nat

/-- Modelled from the spec: `logSumExp(a, b)` returns
log(exp(a) + exp(b)) (spec section 4.1). -/
noncomputable def logSumExp (a b : ℝ) : ℝ := Real.log (Real.exp a + Real.exp b)

/-- Modelled from the spec: the JointScorer normalization constant
Z(t,u) = logsumexp over the vocabulary of
Emissions[t,k] + Predictions[u,k] (spec section 4.2). -/
noncomputable def logZ (ex : TransEx) (t u : Nat) : ℝ :=
  Real.log (∑ k ∈ Finset.range ex.vocab, Real.exp (ex.emissions t k + ex.predictions u k))

/-- Modelled from the spec: the local log-probability of symbol k at
cell (t,u): Emissions[t,k] + Predictions[u,k] − Z(t,u) (spec
section 4.2). -/
noncomputable def logProb (ex : TransEx) (t u k : Nat) : ℝ :=
  ex.emissions t k + ex.predictions u k - logZ ex t u

/-- Modelled from the spec: the alpha recursion of spec section 4.3:
alpha[0,0] = 0, alpha[t,0] = alpha[t−1,0] + logP(blank | t−1,0),
alpha[0,u] = alpha[0,u−1] + logP(label[u−1] | 0,u−1), and in the
interior the log-sum-exp of the blank and label transitions. -/
noncomputable def alphaDP (ex : TransEx) : Nat → Nat → ℝ
  | 0, 0 => 0
  | t + 1, 0 => alphaDP ex t 0 + logProb ex t 0 ex.blank
  | 0, u + 1 => alphaDP ex 0 u + logProb ex 0 u (ex.labels u)
  | t + 1, u + 1 =>
      logSumExp (alphaDP ex t (u + 1) + logProb ex t (u + 1) ex.blank)
        (alphaDP ex (t + 1) u + logProb ex (t + 1) u (ex.labels u))
  termination_by t u => t + u

/-- Modelled from the spec: the per-example cost of spec section 4.3,
−( alpha[T−1, U−1] + logP(blank | T−1, U−1) ): the forward mass at the
last valid cell extended by the final blank transition. -/
noncomputable def forwardCost (ex : TransEx) (T U : Nat) : ℝ :=
  -(alphaDP ex (T - 1) (U - 1) + logProb ex (T - 1) (U - 1) ex.blank)

/-- The concrete scenario of spec section 8: T = 2, U = 2, V = 2,
blank = 0, single label [1], all emission and prediction scores
zero. -/
noncomputable def uniformEx : TransEx :=
  { emissions := fun _ _ => 0, predictions := fun _ _ => 0,
    labels := fun _ => 1, vocab := 2, blank := 0 }

/-- Valid concrete inputs: B = 1, T = 2, U = 2, V = 2, one label [1],
input length 2, label length 1. -/
def vE : Tensor := { shape := [1, 2, 2], dtype := .float32, contiguous := true, idata := [] }

/-- Valid concrete predictions tensor, shape (1, 2, 2). -/
def vP : Tensor := { shape := [1, 2, 2], dtype := .float32, contiguous := true, idata := [] }

/-- Valid concrete labels tensor, shape (1, 1), data [1]. -/
def vL : Tensor := { shape := [1, 1], dtype := .int32, contiguous := true, idata := [1] }

/-- Valid concrete input_lengths tensor, shape (1), data [2]. -/
def vIL : Tensor := { shape := [1], dtype := .int32, contiguous := true, idata := [2] }

/-- Valid concrete label_lengths tensor, shape (1), data [1]. -/
def vLL : Tensor := { shape := [1], dtype := .int32, contiguous := true, idata := [1] }

/-- C5: for every valid input (one on which `certify_inputs` passes),
`Transducer.forward` succeeds and produces costs of shape (B,), alphas
of shape (B, T, U) and log_norms of shape (B, T, U), with B, T taken
from the emissions tensor and U from the predictions tensor. -/
theorem C5_forward_output_shapes (e p l il ll : Tensor) (b : Int) (B T V B2 U V2 : Nat)
    (he : e.shape = [B, T, V]) (hp : p.shape = [B2, U, V2])
    (hok : certify_inputs e p l il ll = .ok ()) :
    Transducer.forward e p l il ll b =
      .ok (torch_empty [B] e.dtype,
        { emissions := e, predictions := p,
          alphas := torch_empty [B, T, U] e.dtype,
          log_norms := torch_empty [B, T, U] e.dtype,
          labels := l, input_lengths := il, label_lengths := ll, blank := b }) ∧
    (torch_empty [B] e.dtype).shape = [B] ∧
    (torch_empty [B, T, U] e.dtype).shape = [B, T, U] := by
  refine ⟨?_, rfl, rfl⟩
  simp [Transducer.forward, unpack3, Tensor.shapeAt, he, hp, hok, Bind.bind, Except.bind,
    Functor.map, Except.map, Pure.pure, Except.pure]

/-- Witness for C5 at the valid concrete input. -/
theorem C5_forward_output_shapes_witness :
    vE.shape = [1, 2, 2] ∧ vP.shape = [1, 2, 2] ∧
    certify_inputs vE vP vL vIL vLL = .ok () ∧
    (Transducer.forward vE vP vL vIL vLL 0 =
      .ok (torch_empty [1] vE.dtype,
        { emissions := vE, predictions := vP,
          alphas := torch_empty [1, 2, 2] vE.dtype,
          log_norms := torch_empty [1, 2, 2] vE.dtype,
          labels := vL, input_lengths := vIL, label_lengths := vLL, blank := 0 }) ∧
    (torch_empty [1] vE.dtype).shape = [1] ∧
    (torch_empty [1, 2, 2] vE.dtype).shape = [1, 2, 2]) :=
  ⟨rfl, rfl, rfl,
    C5_forward_output_shapes vE vP vL vIL vLL 0 1 2 2 1 2 2 rfl rfl rfl⟩

/-- C3: when validation fails, `Transducer.forward` fails: the result
is an error that carries no costs, no alpha table, no log-norm table
and no saved context, because in the source the allocation of the
output tensors and the call into the core follow `certify_inputs` in
program order and are never reached. -/
theorem C3_forward_fails_atomically (e p l il ll : Tensor) (b : Int) (err : PyErr)
    (hfail : certify_inputs e p l il ll = .error err) :
    exceptOk (Transducer.forward e p l il ll b) = false := by
  unfold Transducer.forward
  rcases h1 : unpack3 e.shape with e1 | v3
  · simp [exceptOk, h1, Bind.bind, Except.bind, Functor.map, Except.map, Pure.pure, Except.pure]
  · rcases h2 : p.shapeAt 1 with e2 | u
    · simp [exceptOk, h1, h2, Bind.bind, Except.bind, Functor.map, Except.map, Pure.pure, Except.pure]
    · simp [exceptOk, h1, h2, hfail, Bind.bind, Except.bind, Functor.map, Except.map, Pure.pure, Except.pure]

/-- Witness for C3 at a concrete invalid input (non-contiguous labels). -/
theorem C3_forward_fails_atomically_witness :
    certify_inputs vE vP
        { shape := [1, 1], dtype := .int32, contiguous := false, idata := [1] } vIL vLL =
      .error (.contigErr "labels") ∧
    exceptOk (Transducer.forward vE vP
        { shape := [1, 1], dtype := .int32, contiguous := false, idata := [1] } vIL vLL 0) =
      false :=
  ⟨rfl, C3_forward_fails_atomically vE vP
    { shape := [1, 1], dtype := .int32, contiguous := false, idata := [1] } vIL vLL 0
    (.contigErr "labels") rfl⟩

/-- C4: `Transducer.backward` returns egrad of shape (B, T, V) and
pgrad of shape (B, U, V), and None for each of labels, input_lengths,
label_lengths and blank, so gradients are produced only for the two
score tensors. -/
theorem C4_backward_grads (ctx : Ctx) (cost : Tensor) (B T V U : Nat)
    (he : ctx.emissions.shape = [B, T, V]) (hp : ctx.predictions.shape[1]? = some U) :
    Transducer.backward ctx cost =
      .ok { egrad := some (torch_empty [B, T, V] cost.dtype),
            pgrad := some (torch_empty [B, U, V] cost.dtype),
            labels_grad := none, input_lengths_grad := none,
            label_lengths_grad := none, blank_grad := none } ∧
    (torch_empty [B, T, V] cost.dtype).shape = [B, T, V] ∧
    (torch_empty [B, U, V] cost.dtype).shape = [B, U, V] := by
  refine ⟨?_, rfl, rfl⟩
  simp [Transducer.backward, unpack3, Tensor.shapeAt, he, hp, Bind.bind, Except.bind,
    Functor.map, Except.map, Pure.pure, Except.pure]

/-- Witness for C4 at a concrete saved context. -/
theorem C4_backward_grads_witness :
    ({ emissions := vE, predictions := vP, alphas := torch_empty [1, 2, 2] .float32,
       log_norms := torch_empty [1, 2, 2] .float32, labels := vL, input_lengths := vIL,
       label_lengths := vLL, blank := 0 } : Ctx).emissions.shape = [1, 2, 2] ∧
    ({ emissions := vE, predictions := vP, alphas := torch_empty [1, 2, 2] .float32,
       log_norms := torch_empty [1, 2, 2] .float32, labels := vL, input_lengths := vIL,
       label_lengths := vLL, blank := 0 } : Ctx).predictions.shape[1]? = some 2 ∧
    (Transducer.backward
      { emissions := vE, predictions := vP, alphas := torch_empty [1, 2, 2] .float32,
        log_norms := torch_empty [1, 2, 2] .float32, labels := vL, input_lengths := vIL,
        label_lengths := vLL, blank := 0 } (torch_empty [1] .float32) =
      .ok { egrad := some (torch_empty [1, 2, 2] (torch_empty [1] .float32).dtype),
            pgrad := some (torch_empty [1, 2, 2] (torch_empty [1] .float32).dtype),
            labels_grad := none, input_lengths_grad := none,
            label_lengths_grad := none, blank_grad := none } ∧
    (torch_empty [1, 2, 2] (torch_empty [1] .float32).dtype).shape = [1, 2, 2] ∧
    (torch_empty [1, 2, 2] (torch_empty [1] .float32).dtype).shape = [1, 2, 2]) :=
  ⟨rfl, rfl,
    C4_backward_grads
      { emissions := vE, predictions := vP, alphas := torch_empty [1, 2, 2] .float32,
        log_norms := torch_empty [1, 2, 2] .float32, labels := vL, input_lengths := vIL,
        label_lengths := vLL, blank := 0 } (torch_empty [1] .float32) 1 2 2 2 rfl rfl⟩

/-- C9: the blank id is never validated: for any input that passes
`certify_inputs`, `Transducer.forward` succeeds for every integer
value of blank (negative or at least V included), and the default
value of the blank argument is 0. -/
theorem C9_blank_unvalidated (e p l il ll : Tensor) (blank : Int) (B T V B2 U V2 : Nat)
    (he : e.shape = [B, T, V]) (hp : p.shape = [B2, U, V2])
    (hok : certify_inputs e p l il ll = .ok ()) :
    exceptOk (Transducer.forward e p l il ll blank) = true ∧
    Transducer.forwardDefault e p l il ll = Transducer.forward e p l il ll 0 := by
  refine ⟨?_, rfl⟩
  simp [Transducer.forward, unpack3, Tensor.shapeAt, he, hp, hok, exceptOk, Bind.bind,
    Except.bind, Functor.map, Except.map, Pure.pure, Except.pure]

/-- Witness for C9 at the valid concrete input with blank = −7,
an id that is negative and outside the vocabulary. -/
theorem C9_blank_unvalidated_witness :
    vE.shape = [1, 2, 2] ∧ vP.shape = [1, 2, 2] ∧
    certify_inputs vE vP vL vIL vLL = .ok () ∧
    (exceptOk (Transducer.forward vE vP vL vIL vLL (-7)) = true ∧
     Transducer.forwardDefault vE vP vL vIL vLL = Transducer.forward vE vP vL vIL vLL 0) :=
  ⟨rfl, rfl, rfl,
    C9_blank_unvalidated vE vP vL vIL vLL (-7) 1 2 2 1 2 2 rfl rfl rfl⟩

/-- Emissions like `vE` but non-contiguous. -/
def cE8 : Tensor := { shape := [1, 2, 2], dtype := .float32, contiguous := false, idata := [] }

/-- Predictions like `vP` but non-contiguous. -/
def cP8 : Tensor := { shape := [1, 2, 2], dtype := .float32, contiguous := false, idata := [] }

/-- C8 counterexample: `certify_inputs` never looks at the contiguity
of emissions or predictions, so a call whose emissions and predictions
are both non-contiguous raises no contiguity error at all and
`Transducer.forward` succeeds, refuting the claim that every
non-contiguous input tensor triggers a contiguity error. -/
theorem C8_no_contiguity_check_on_scores :
    cE8.contiguous = false ∧ cP8.contiguous = false ∧
    raisesContigErr (certify_inputs cE8 cP8 vL vIL vLL) = false ∧
    exceptOk (Transducer.forward cE8 cP8 vL vIL vLL 0) = true := by
  refine ⟨rfl, rfl, rfl, rfl⟩

/-- C8 amended: the validation performs contiguity checks only on
labels, label_lengths and input_lengths; whenever one of those three
is non-contiguous (and the dtype checks that run first pass), a
contiguity error is raised before the core computation runs. -/
theorem C8_contiguity_checked_lengths (e p l il ll : Tensor)
    (h1 : e.dtype = .float32) (h2 : p.dtype = .float32) (h3 : l.dtype = .int32)
    (h4 : il.dtype = .int32) (h5 : ll.dtype = .int32)
    (h : l.contiguous = false ∨ ll.contiguous = false ∨ il.contiguous = false) :
    raisesContigErr (certify_inputs e p l il ll) = true := by
  cases hl : l.contiguous <;> cases hll : ll.contiguous <;> cases hil : il.contiguous <;>
    simp_all [certify_inputs, check_type, check_contiguous, raisesContigErr,
      Bind.bind, Except.bind]

/-- Witness for the amended C8 at a concrete input with
non-contiguous labels. -/
theorem C8_contiguity_checked_lengths_witness :
    vE.dtype = DType.float32 ∧ vP.dtype = DType.float32 ∧
    ({ shape := [1, 1], dtype := .int32, contiguous := false, idata := [1] } : Tensor).dtype =
      DType.int32 ∧
    vIL.dtype = DType.int32 ∧ vLL.dtype = DType.int32 ∧
    ({ shape := [1, 1], dtype := .int32, contiguous := false, idata := [1] } : Tensor).contiguous =
      false ∧
    raisesContigErr (certify_inputs vE vP
      { shape := [1, 1], dtype := .int32, contiguous := false, idata := [1] } vIL vLL) = true :=
  ⟨rfl, rfl, rfl, rfl, rfl, rfl,
    C8_contiguity_checked_lengths vE vP
      { shape := [1, 1], dtype := .int32, contiguous := false, idata := [1] } vIL vLL
      rfl rfl rfl rfl rfl (Or.inl rfl)⟩

/-- Rank-1 predictions tensor used to defeat the `predictions.shape[1]`
destructuring in `Transducer.forward`. -/
def cP6 : Tensor := { shape := [2], dtype := .float32, contiguous := true, idata := [] }

/-- Labels tensor with the wrong element type (float32 instead of
int32). -/
def cL6 : Tensor := { shape := [1, 1], dtype := .float32, contiguous := true, idata := [] }

/-- C6 counterexample: with labels of the wrong dtype but a rank-1
predictions tensor, `Transducer.forward` raises IndexError at
`predictions.shape[1]` before `certify_inputs` ever runs its type
checks, so no type error is raised and the universal statement of the
claim fails. -/
theorem C6_typeerror_not_always :
    cL6.dtype ≠ DType.int32 ∧
    Transducer.forward vE cP6 cL6 vIL vLL 0 = .error .indexErr ∧
    raisesTypeErr (Transducer.forward vE cP6 cL6 vIL vLL 0) = false := by
  refine ⟨by decide, rfl, rfl⟩

/-- C6 amended: provided the initial shape destructuring of forward
succeeds (emissions has exactly three dimensions and predictions at
least two), any input tensor with a wrong element type makes
`Transducer.forward` raise a type error before the core computation is
invoked, because the five dtype checks are the first statements of
`certify_inputs`. -/
theorem C6_typeerror_on_wrong_dtype (e p l il ll : Tensor) (b : Int) (B T V U : Nat)
    (he : e.shape = [B, T, V]) (hp : p.shape[1]? = some U)
    (h : e.dtype ≠ .float32 ∨ p.dtype ≠ .float32 ∨ l.dtype ≠ .int32 ∨
         il.dtype ≠ .int32 ∨ ll.dtype ≠ .int32) :
    raisesTypeErr (Transducer.forward e p l il ll b) = true := by
  by_cases he1 : e.dtype = .float32 <;> by_cases hp1 : p.dtype = .float32 <;>
    by_cases hl1 : l.dtype = .int32 <;> by_cases hil1 : il.dtype = .int32 <;>
    by_cases hll1 : ll.dtype = .int32 <;>
    simp_all [Transducer.forward, certify_inputs, check_type, raisesTypeErr, unpack3,
      Tensor.shapeAt, Bind.bind, Except.bind]

/-- Witness for the amended C6 at a concrete input whose labels are
float32. -/
theorem C6_typeerror_on_wrong_dtype_witness :
    vE.shape = [1, 2, 2] ∧ vP.shape[1]? = some 2 ∧ cL6.dtype ≠ DType.int32 ∧
    raisesTypeErr (Transducer.forward vE vP cL6 vIL vLL 0) = true :=
  ⟨rfl, rfl, by decide,
    C6_typeerror_on_wrong_dtype vE vP cL6 vIL vLL 0 1 2 2 2 rfl rfl
      (Or.inr (Or.inr (Or.inl (by decide))))⟩

/-- A 2-D emissions tensor of the correct dtype. -/
def cE10 : Tensor := { shape := [2, 2], dtype := .float32, contiguous := true, idata := [] }

/-- Labels tensor of correct dtype but non-contiguous. -/
def cL10 : Tensor := { shape := [1, 1], dtype := .int32, contiguous := false, idata := [1] }

/-- C10 counterexample: an emissions tensor with fewer than three
dimensions that passes the dtype checks does not always make
validation fail at the vocabulary comparison: the contiguity checks
run in between, so with non-contiguous labels `certify_inputs` raises
a contiguity error, not an index error. -/
theorem C10_contiguity_intervenes :
    cE10.shape.length < 3 ∧
    cE10.dtype = DType.float32 ∧ vP.dtype = DType.float32 ∧ cL10.dtype = DType.int32 ∧
    vIL.dtype = DType.int32 ∧ vLL.dtype = DType.int32 ∧
    certify_inputs cE10 vP cL10 vIL vLL = .error (.contigErr "labels") ∧
    certify_inputs cE10 vP cL10 vIL vLL ≠ .error .indexErr := by
  have hev : certify_inputs cE10 vP cL10 vIL vLL = .error (.contigErr "labels") := rfl
  refine ⟨by decide, rfl, rfl, rfl, rfl, rfl, hev, ?_⟩
  rw [hev]
  simp

/-- C10 amended: the dtype checks precede the contiguity checks, which
precede all shape comparisons, and the vocabulary comparison
`emissions.shape[2] != predictions.shape[2]` precedes the rank checks;
hence for every emissions tensor of rank below three that passes the
dtype and contiguity checks, `certify_inputs` fails with IndexError
while indexing the shape tuple, and the "emissions must be 3D" rank
error is unreachable (the result is IndexError, never that
ValueError). -/
theorem C10_indexerror_shadows_rank_check (e p l il ll : Tensor)
    (h1 : e.dtype = .float32) (h2 : p.dtype = .float32) (h3 : l.dtype = .int32)
    (h4 : il.dtype = .int32) (h5 : ll.dtype = .int32)
    (hc1 : l.contiguous = true) (hc2 : ll.contiguous = true) (hc3 : il.contiguous = true)
    (hlen : e.shape.length < 3) :
    certify_inputs e p l il ll = .error .indexErr := by
  rcases hs : e.shape with _ | ⟨a, _ | ⟨c, _ | ⟨d, t⟩⟩⟩
  · simp_all [certify_inputs, check_type, check_contiguous, Tensor.shapeAt,
      Bind.bind, Except.bind]
  · simp_all [certify_inputs, check_type, check_contiguous, Tensor.shapeAt,
      Bind.bind, Except.bind]
  · simp_all [certify_inputs, check_type, check_contiguous, Tensor.shapeAt,
      Bind.bind, Except.bind]
  · rw [hs] at hlen
    simp at hlen
    omega

/-- Witness for the amended C10 at a concrete 2-D emissions tensor. -/
theorem C10_indexerror_shadows_rank_check_witness :
    cE10.dtype = DType.float32 ∧ vP.dtype = DType.float32 ∧ vL.dtype = DType.int32 ∧
    vIL.dtype = DType.int32 ∧ vLL.dtype = DType.int32 ∧
    vL.contiguous = true ∧ vLL.contiguous = true ∧ vIL.contiguous = true ∧
    cE10.shape.length < 3 ∧
    certify_inputs cE10 vP vL vIL vLL = .error .indexErr :=
  ⟨rfl, rfl, rfl, rfl, rfl, rfl, rfl, rfl, by decide,
    C10_indexerror_shadows_rank_check cE10 vP vL vIL vLL
      rfl rfl rfl rfl rfl rfl rfl rfl (by decide)⟩

/-- Batch of two examples where example 0 has label_length −1: all the
max-based checks of `certify_inputs` pass. Emissions shape (2, 2, 2). -/
def c7E : Tensor := { shape := [2, 2, 2], dtype := .float32, contiguous := true, idata := [] }

/-- Predictions for the C7 batch, shape (2, 2, 2). -/
def c7P : Tensor := { shape := [2, 2, 2], dtype := .float32, contiguous := true, idata := [] }

/-- Labels for the C7 batch, shape (2, 1). -/
def c7L : Tensor := { shape := [2, 1], dtype := .int32, contiguous := true, idata := [1, 1] }

/-- Input lengths for the C7 batch: both 2. -/
def c7IL : Tensor := { shape := [2], dtype := .int32, contiguous := true, idata := [2, 2] }

/-- Label lengths for the C7 batch: −1 for example 0, 1 for example 1. -/
def c7LL : Tensor := { shape := [2], dtype := .int32, contiguous := true, idata := [-1, 1] }

/-- C7: the code contradicts the NumericalDegenerate policy of the spec.
`certify_inputs` only compares the batch maxima of the length tensors,
so a batch in which example 0 has label_length = −1 (a negative,
degenerate valid region) passes validation whenever another example
attains the maximum, and `Transducer.forward` proceeds into the core
instead of failing the batch call. -/
theorem C7_degenerate_example_not_rejected :
    c7LL.idata = [-1, 1] ∧ (-1 : Int) < 0 ∧
    certify_inputs c7E c7P c7L c7IL c7LL = .ok () ∧
    exceptOk (Transducer.forward c7E c7P c7L c7IL c7LL 0) = true := by
  refine ⟨rfl, by decide, rfl, rfl⟩

/-- Emissions with the wrong dtype (float64) and vocabulary size 2. -/
def cE2 : Tensor := { shape := [1, 2, 2], dtype := .float64, contiguous := true, idata := [] }

/-- Predictions with vocabulary size 3, mismatching `cE2`. -/
def cP2 : Tensor := { shape := [1, 2, 3], dtype := .float32, contiguous := true, idata := [] }

/-- C2 counterexample: the claimed equivalence fails because the
checks are ordered: with emissions of the wrong dtype and a vocabulary
mismatch, the vocabulary inconsistency listed by the claim holds, yet
forward raises a TypeError, not a shape error. -/
theorem C2_shape_error_iff_fails :
    cE2.shape[2]? = some 2 ∧ cP2.shape[2]? = some 3 ∧ (2 : Nat) ≠ 3 ∧
    Transducer.forward cE2 cP2 vL vIL vLL 0 = .error (.typeErr "emissions" .float32) ∧
    raisesShapeErr (Transducer.forward cE2 cP2 vL vIL vLL 0) = false := by
  refine ⟨rfl, rfl, by decide, rfl, rfl⟩

/-- When the initial shape destructuring of forward succeeds, forward
raises a shape-comparison error exactly when `certify_inputs` does. -/
lemma forward_shapeErr_eq_certify (e p l il ll : Tensor) (b : Int) (B T V B2 U V2 : Nat)
    (he : e.shape = [B, T, V]) (hp : p.shape = [B2, U, V2]) :
    raisesShapeErr (Transducer.forward e p l il ll b) =
      raisesShapeErr (certify_inputs e p l il ll) := by
  rcases hc : certify_inputs e p l il ll with err | u
  · have hf : Transducer.forward e p l il ll b = Except.error err := by
      simp [Transducer.forward, unpack3, Tensor.shapeAt, he, hp, hc, Bind.bind, Except.bind]
    rw [hf]
    cases err <;> rfl
  · cases u
    have hf : Transducer.forward e p l il ll b =
        Except.ok (torch_empty [B] e.dtype,
          { emissions := e, predictions := p, alphas := torch_empty [B, T, U] e.dtype,
            log_norms := torch_empty [B, T, U] e.dtype, labels := l, input_lengths := il,
            label_lengths := ll, blank := b }) := by
      simp [Transducer.forward, unpack3, Tensor.shapeAt, he, hp, hc, Bind.bind, Except.bind]
    rw [hf]
    simp [raisesShapeErr]

/-- Closed form of `certify_inputs` on inputs of the checked dtypes,
contiguity and ranks with nonempty length data: the five shape
comparisons and the two max-length comparisons, in source order. -/
lemma certify_inputs_eval (e p l il ll : Tensor) (B T V B2 U V2 B3 L B4 B5 : Nat)
    (a : Int) (r : List Int) (a2 : Int) (r2 : List Int)
    (he : e.shape = [B, T, V]) (hp : p.shape = [B2, U, V2])
    (hl : l.shape = [B3, L]) (hil : il.shape = [B4]) (hll : ll.shape = [B5])
    (h1 : e.dtype = .float32) (h2 : p.dtype = .float32) (h3 : l.dtype = .int32)
    (h4 : il.dtype = .int32) (h5 : ll.dtype = .int32)
    (hc1 : l.contiguous = true) (hc2 : ll.contiguous = true) (hc3 : il.contiguous = true)
    (hi : il.idata = a :: r) (hli : ll.idata = a2 :: r2) :
    certify_inputs e p l il ll =
      (if V ≠ V2 then Except.error (.shapeErr "vocab size mismatch.") else
       if B4 ≠ B then Except.error (.shapeErr "must have a length per example.") else
       if B5 ≠ B then Except.error (.shapeErr "must have a label length per example.") else
       if B3 ≠ B then Except.error (.shapeErr "must have a label per example.") else
       if (L : Int) ≠ (U : Int) - 1 then
         Except.error (.shapeErr "labels must be padded to maximum label length.") else
       if (T : Int) ≠ r.foldl max a then Except.error (.shapeErr "Input length mismatch") else
       if (U : Int) ≠ r2.foldl max a2 + 1 then
         Except.error (.shapeErr "Output length mismatch") else
       Except.ok ()) := by
  simp only [certify_inputs, check_type, check_contiguous, check_dim, Tensor.shapeAt,
    torch_max, he, hp, hl, hil, hll, h1, h2, h3, h4, h5, hc1, hc2, hc3, hi, hli,
    Bind.bind, Except.bind, List.get?, List.length]
  norm_num

/-- C2 amended: for inputs with the required dtypes, contiguous
labels and length tensors, tensors of the checked ranks (emissions and
predictions 3-D, labels 2-D, lengths 1-D) and nonempty length data,
`Transducer.forward` raises one of the shape-comparison ValueErrors
exactly when one of the listed inconsistencies holds: vocabulary
mismatch, a length or label tensor whose first dimension differs from
B, a second labels dimension different from U − 1, T different from
max(input_lengths), or U different from max(label_lengths) + 1. -/
theorem C2_shape_error_iff (e p l il ll : Tensor) (b : Int) (B T V B2 U V2 B3 L B4 B5 : Nat)
    (he : e.shape = [B, T, V]) (hp : p.shape = [B2, U, V2])
    (hl : l.shape = [B3, L]) (hil : il.shape = [B4]) (hll : ll.shape = [B5])
    (h1 : e.dtype = .float32) (h2 : p.dtype = .float32) (h3 : l.dtype = .int32)
    (h4 : il.dtype = .int32) (h5 : ll.dtype = .int32)
    (hc1 : l.contiguous = true) (hc2 : ll.contiguous = true) (hc3 : il.contiguous = true)
    (hd1 : il.idata ≠ []) (hd2 : ll.idata ≠ []) :
    raisesShapeErr (Transducer.forward e p l il ll b) = true ↔
      (V ≠ V2 ∨ B4 ≠ B ∨ B5 ≠ B ∨ B3 ≠ B ∨ (L : Int) ≠ (U : Int) - 1 ∨
       (T : Int) ≠ torchMaxVal il.idata ∨ (U : Int) ≠ torchMaxVal ll.idata + 1) := by
  rcases hil2 : il.idata with _ | ⟨a, r⟩
  · exact absurd hil2 hd1
  rcases hll2 : ll.idata with _ | ⟨a2, r2⟩
  · exact absurd hll2 hd2
  rw [forward_shapeErr_eq_certify e p l il ll b B T V B2 U V2 he hp,
    certify_inputs_eval e p l il ll B T V B2 U V2 B3 L B4 B5 a r a2 r2
      he hp hl hil hll h1 h2 h3 h4 h5 hc1 hc2 hc3 hil2 hll2]
  simp only [torchMaxVal, hil2, hll2]
  split_ifs <;> simp_all [raisesShapeErr]

/-- Witness for the amended C2 at the valid concrete input, where no
inconsistency holds and no shape error is raised. -/
theorem C2_shape_error_iff_witness :
    vE.shape = [1, 2, 2] ∧ vP.shape = [1, 2, 2] ∧ vL.shape = [1, 1] ∧
    vIL.shape = [1] ∧ vLL.shape = [1] ∧ vIL.idata ≠ [] ∧ vLL.idata ≠ [] ∧
    (raisesShapeErr (Transducer.forward vE vP vL vIL vLL 0) = true ↔
      ((2 : Nat) ≠ 2 ∨ (1 : Nat) ≠ 1 ∨ (1 : Nat) ≠ 1 ∨ (1 : Nat) ≠ 1 ∨
       ((1 : Nat) : Int) ≠ ((2 : Nat) : Int) - 1 ∨
       ((2 : Nat) : Int) ≠ torchMaxVal vIL.idata ∨
       ((2 : Nat) : Int) ≠ torchMaxVal vLL.idata + 1)) :=
  ⟨rfl, rfl, rfl, rfl, rfl, by decide, by decide,
    C2_shape_error_iff vE vP vL vIL vLL 0 1 2 2 1 2 2 1 1 1 1
      rfl rfl rfl rfl rfl rfl rfl rfl rfl rfl rfl rfl rfl (by decide) (by decide)⟩

/-- The log-sum-exp of a value with itself adds log 2. -/
lemma logSumExp_same (x : ℝ) : logSumExp x x = Real.log 2 + x := by
  unfold logSumExp
  rw [← two_mul, Real.log_mul (by norm_num) (Real.exp_ne_zero x), Real.log_exp]

/-- In the uniform scenario the normalization constant of every cell
is log 2. -/
lemma logZ_uniformEx (t u : Nat) : logZ uniformEx t u = Real.log 2 := by
  unfold logZ uniformEx
  norm_num [Finset.sum_range_succ]

/-- In the uniform scenario every local log-probability is −log 2. -/
lemma logProb_uniformEx (t u k : Nat) : logProb uniformEx t u k = -Real.log 2 := by
  unfold logProb
  rw [logZ_uniformEx]
  simp [uniformEx]

/-- Alpha at (1,0) in the uniform scenario. -/
lemma alphaDP_uniformEx_10 : alphaDP uniformEx 1 0 = -Real.log 2 := by
  simp [alphaDP, logProb_uniformEx]

/-- Alpha at (0,1) in the uniform scenario. -/
lemma alphaDP_uniformEx_01 : alphaDP uniformEx 0 1 = -Real.log 2 := by
  simp [alphaDP, logProb_uniformEx]

/-- Alpha at (1,1) in the uniform scenario. -/
lemma alphaDP_uniformEx_11 : alphaDP uniformEx 1 1 = -Real.log 2 := by
  have h : alphaDP uniformEx 1 1 =
      logSumExp (alphaDP uniformEx 0 1 + logProb uniformEx 0 1 uniformEx.blank)
        (alphaDP uniformEx 1 0 + logProb uniformEx 1 0 (uniformEx.labels 0)) := by
    simp [alphaDP]
  rw [h, alphaDP_uniformEx_01, alphaDP_uniformEx_10, logProb_uniformEx, logProb_uniformEx,
    logSumExp_same]
  ring

/-- The spec-modelled cost of the uniform scenario is 2·log 2 = log 4:
each of the two complete alignments, final blank transition included,
has probability 1/8, so the total path mass is 1/4. -/
lemma forwardCost_uniformEx : forwardCost uniformEx 2 2 = 2 * Real.log 2 := by
  unfold forwardCost
  norm_num
  rw [alphaDP_uniformEx_11, logProb_uniformEx]
  ring

/-- C1 counterexample: on the concrete scenario of the claim the cost
defined by the recursion and final-blank formula of the spec itself is
2·log 2 ≈ 1.386, not log 2 ≈ 0.693: the expected value of the claim
ignores the final blank transition that its own cost formula
includes. -/
theorem C1_uniform_cost_not_log2 :
    forwardCost uniformEx 2 2 = 2 * Real.log 2 ∧ forwardCost uniformEx 2 2 ≠ Real.log 2 := by
  refine ⟨forwardCost_uniformEx, ?_⟩
  rw [forwardCost_uniformEx]
  intro h
  have hpos : 0 < Real.log 2 := Real.log_pos (by norm_num)
  linarith

/-- C1 amended: for every example the cost equals
−( alpha[T−1, U−1] + logP(blank | T−1, U−1) ), and on the concrete
uniform scenario (T = U = V = 2, blank = 0, label [1], all scores 0)
that cost equals log 4 = 2·log 2: two alignments of probability
(1/2)·(1/2)·(1/2) each, the final blank included. -/
theorem C1_cost_final_blank_and_uniform_value :
    (∀ (ex : TransEx) (T U : Nat),
      forwardCost ex T U =
        -(alphaDP ex (T - 1) (U - 1) + logProb ex (T - 1) (U - 1) ex.blank)) ∧
    forwardCost uniformEx 2 2 = 2 * Real.log 2 :=
  ⟨fun _ _ _ => rfl, forwardCost_uniformEx⟩
